import Mathlib

/-!
Verification of the LIC platform processing pipeline: a shallow embedding of
the record store (backend/app/database.py), the reply safety gate
(backend/app/reply.py), the analysis fallback (backend/app/brain.py) and the
worker orchestration and backoff loop (backend/app/worker.py), with theorems
about queue transitions, gate layering and error handling.

Strings are modelled as Lean `String`s; Python `str.lower` is modelled by
mapping `Char.toLower` (all keyword tables are ASCII), Python's substring
operator `in` by an explicit scan, and `re.search` with `\b` word boundaries
by a scan that tracks whether the previous character is a word character.
-/

namespace LIC

/-! ## String helpers (Python `lower`, `in`, `re.search \b..\b`, `strip`) -/

/-- Python `str.lower()` on the ASCII keyword alphabet. -/
def strLower (s : String) : String :=
  ⟨s.data.map Char.toLower⟩

/-- `startsList pat l` : does `l` start with `pat`? -/
def startsList : List Char → List Char → Bool
  | [], _ => true
  | _ :: _, [] => false
  | a :: as, b :: bs => a == b && startsList as bs

/-- `subOccurs pat l` : does `pat` occur as a contiguous sublist of `l`?
This is Python's `pat in l` on strings. -/
def subOccurs (pat : List Char) : List Char → Bool
  | [] => pat.isEmpty
  | c :: rest => startsList pat (c :: rest) || subOccurs pat rest

/-- Python `pat in s` (substring test). -/
def containsSub (pat s : String) : Bool :=
  subOccurs pat.data s.data

/-- Python regex `\w` (ASCII fragment, which covers every keyword). -/
def wordChar (c : Char) : Bool :=
  c.isAlphanum || c == '_'

/-- After consuming `pat` at the front of `s`, the next character (if any)
must not be a word character — the trailing `\b`. -/
def boundaryAfter (pat s : List Char) : Bool :=
  match s.drop pat.length with
  | [] => true
  | d :: _ => !wordChar d

/-- Scan for a whole-word occurrence of `pat`; `prevOk` records that the
previous character (or the start of the string) is a word boundary. Faithful
to `re.search(r'\b' + kw + r'\b', s)` for keywords made of word characters. -/
def wholeWordAux (pat : List Char) (prevOk : Bool) : List Char → Bool
  | [] => false
  | c :: rest =>
      (prevOk && startsList pat (c :: rest) && boundaryAfter pat (c :: rest))
        || wholeWordAux pat (!wordChar c) rest

/-- Whole-word, case-already-folded occurrence of `pat` in `s`. -/
def wholeWordOccurs (pat s : String) : Bool :=
  wholeWordAux pat.data true s.data

/-- Strip matching characters from both ends of a list. -/
def stripEnds (p : Char → Bool) (l : List Char) : List Char :=
  ((l.dropWhile p).reverse.dropWhile p).reverse

/-! ## reply.py : keyword tables (verbatim from the source) -/

/-- reply.py `HARD_BLOCK_KEYWORDS`. -/
def HARD_BLOCK_KEYWORDS : List String :=
  ["claim", "claims", "claimed",
   "payment", "payments", "paid", "pay", "paying",
   "refund", "refunds", "refunded", "refunding",
   "fraud", "fraudulent",
   "legal", "lawyer", "attorney", "court",
   "complaint", "complaints", "complaining",
   "escalation", "escalate", "escalated", "escalating"]

/-- reply.py `SOFT_INDICATORS`. -/
def SOFT_INDICATORS : List String :=
  ["timeline", "timelines", "deadline", "due date", "due by",
   "approval", "approve", "approved", "approving",
   "amount", "amounts",
   "processing time", "process time", "processing delay"]

/-- reply.py `URGENCY_KEYWORDS`. -/
def URGENCY_KEYWORDS : List String :=
  ["urgent", "urgently", "immediate", "immediately", "asap",
   "delay", "delayed", "waiting", "overdue", "past due"]

/-- reply.py `FORBIDDEN_OUTPUT_TERMS`. -/
def FORBIDDEN_OUTPUT_TERMS : List String :=
  ["payment", "claim", "refund", "refunds",
   "approve", "approved", "authorization", "confirmed",
   "guarantee", "guaranteed", "will process", "will be processed",
   "timeline", "timeframe", "within", "by", "days",
   "settled", "resolved", "completed"]

/-- reply.py `PATTERN_MAPPING` (intent to pattern id, an association list). -/
def PATTERN_MAPPING : List (String × String) :=
  [("GENERAL_ENQUIRY", "PATTERN_B"),
   ("REQUEST", "PATTERN_A"),
   ("APPRECIATION", "PATTERN_C")]

/-- reply.py `APPROVED_PATTERNS` (pattern id to exact reply text). -/
def APPROVED_PATTERNS : List (String × String) :=
  [("PATTERN_A", "Thank you for contacting LIC.\nWe have received your message and it has been noted for review."),
   ("PATTERN_B", "Thank you for your query.\nOur team is reviewing the information and will respond with the relevant details."),
   ("PATTERN_C", "Thank you for your feedback.\nWe appreciate you taking the time to share your experience.")]

/-! ## reply.py : check helpers -/

/-- reply.py `check_hard_keywords`: first hard keyword with a whole-word,
case-insensitive occurrence in the body, if any. -/
def check_hard_keywords (email_body : String) : Bool × String :=
  match HARD_BLOCK_KEYWORDS.find? (fun kw => wholeWordOccurs kw (strLower email_body)) with
  | some kw => (true, kw)
  | none => (false, "")

/-- reply.py `check_soft_indicators_with_risk`: a soft indicator (substring,
case-insensitive; the loop stops at the first hit) blocks only together with
negative sentiment or an urgency keyword. -/
def check_soft_indicators_with_risk (email_body sentiment : String) : Bool × String :=
  match SOFT_INDICATORS.find? (fun ind => containsSub ind (strLower email_body)) with
  | none => (false, "")
  | some ind =>
      let hasNeg := sentiment == "NEGATIVE"
      let hasUrg := URGENCY_KEYWORDS.any (fun u => containsSub u (strLower email_body))
      if hasNeg || hasUrg then
        (true, "\x27" ++ ind ++ "\x27 + "
          ++ (if hasNeg then "negative sentiment" else "urgency keywords"))
      else
        (false, "")

/-- reply.py `check_forbidden_output_terms`: first forbidden term occurring
(substring, case-insensitive) in the candidate response, if any. -/
def check_forbidden_output_terms (response : String) : Bool × String :=
  match FORBIDDEN_OUTPUT_TERMS.find? (fun t => containsSub t (strLower response)) with
  | some t => (true, t)
  | none => (false, "")

/-- Python `response.strip().strip('"').strip("'")` from generate_reply. -/
def cleanResponse (r : String) : String :=
  ⟨stripEnds (fun c => c == '\x27')
    (stripEnds (fun c => c == '\x22')
      (stripEnds (fun c => c.isWhitespace) r.data))⟩

/-! ## reply.py : generate_reply

The drafting collaborator (the `chain.invoke` call on the LLM) is the one
effectful step; it is passed in as `draft : Except String String`, the
outcome of that call (`Except.error` when the invocation raises). The
function returns the reply string together with the reason key logged by
`log_no_reply_decision` on the block paths (`none` on success), mirroring the
source's paired return-and-log. -/

/-- Layers 4 and 5 of reply.py `generate_reply`: deterministic pattern
lookup, invocation of the drafting collaborator (with the arguments the
prompt receives), the NO_REPLY echo check, and post-generation validation.
Named separately so the tail can be reasoned about on its own. -/
def pattern_and_validate (email_body intent priority confidence : String)
    (draft : Except String String) : String × Option String :=
  match PATTERN_MAPPING.lookup intent with
  | none => ("NO_REPLY", some "PATTERN_NOT_FOUND")
  | some _pattern_key =>
      match draft with
      | Except.error _ => ("NO_REPLY", some "LLM_ERROR")
      | Except.ok response =>
          let cleaned := cleanResponse response
          if cleaned == "NO_REPLY" then
            ("NO_REPLY", some "LLM_ERROR")
          else if (check_forbidden_output_terms cleaned).fst then
            ("NO_REPLY", some "POST_VALIDATION_FAIL")
          else
            (cleaned, none)

/-- reply.py `generate_reply`, with the drafting collaborator's outcome as an
explicit argument. -/
def generate_reply (email_body intent priority confidence sentiment : String)
    (draft : Except String String) : String × Option String :=
  if priority == "HIGH" then
    ("NO_REPLY", some "HIGH_PRIORITY")
  else if ["COMPLAINT", "CLAIM_RELATED", "PAYMENT_ISSUE"].contains intent then
    ("NO_REPLY", some "RESTRICTED_INTENT")
  else if !(confidence == "High") then
    ("NO_REPLY", some "LOW_CONFIDENCE")
  else if (check_hard_keywords email_body).fst then
    ("NO_REPLY", some "HARD_BLOCK_KEYWORD")
  else if (check_soft_indicators_with_risk email_body sentiment).fst then
    ("NO_REPLY", some "SOFT_INDICATOR_WITH_RISK")
  else
    pattern_and_validate email_body intent priority confidence draft

/-- Layers 1 to 4 all pass, so control reaches the drafting invocation:
priority not HIGH, intent unrestricted, confidence High, no hard keyword, no
risky soft indicator, and the intent maps to a pattern. -/
def reaches_draft (email_body intent priority confidence sentiment : String) : Bool :=
  !(priority == "HIGH")
    && !(["COMPLAINT", "CLAIM_RELATED", "PAYMENT_ISSUE"].contains intent)
    && (confidence == "High")
    && !(check_hard_keywords email_body).fst
    && !(check_soft_indicators_with_risk email_body sentiment).fst
    && (PATTERN_MAPPING.lookup intent).isSome


/-! ## brain.py : analyze_email

The RAG chain result is an LLM-produced JSON object; it is modelled as a
record of optional fields (`none` = key absent from the dict), matching the
worker's defaulted `dict.get` reads. `get_retriever()` runs before the
`try`, so its failure propagates (`retr`); the chain invocation runs inside
the `try` (`chain`), and its failure yields the fixed fallback dict. -/

/-- An analysis dict: `none` marks a key that is absent. `error` is the key
written by the worker's failure path, `priority` and `priority_reason` the
keys the worker adds after classification. -/
structure Analysis where
  intent : Option String
  sentiment : Option String
  summary : Option String
  confidence : Option String
  suggested_action : Option String
  priority : Option String
  priority_reason : Option String
  error : Option String
deriving DecidableEq, Repr

/-- The empty analysis dict. -/
def emptyAnalysis : Analysis :=
  { intent := none, sentiment := none, summary := none, confidence := none,
    suggested_action := none, priority := none, priority_reason := none,
    error := none }

/-- brain.py: the fixed fallback dict returned when the RAG chain raises. It
has exactly the keys intent, sentiment and suggested_action. -/
def fallbackAnalysis : Analysis :=
  { emptyAnalysis with
      intent := some "Unknown",
      sentiment := some "Neutral",
      suggested_action := some "Manual Review Required (AI Error)" }

/-- worker.py failure path: `analysis={"error": str(e)}`. -/
def errorAnalysis (e : String) : Analysis :=
  { emptyAnalysis with error := some e }

/-- brain.py `analyze_email`: `retr` is the outcome of `get_retriever()`
(called before the `try`, so an error propagates to the caller), `chain` the
outcome of `chain.invoke` (caught, replaced by the fallback dict). -/
def analyze_email (retr : Except String Unit) (chain : Except String Analysis) :
    Except String Analysis :=
  match retr with
  | Except.error e => Except.error e
  | Except.ok _ =>
      match chain with
      | Except.ok result => Except.ok result
      | Except.error _ => Except.ok fallbackAnalysis

/-! ## Priority classifier

Modelled from the spec: the module `app/priority.py` (imported by worker.py
as `from app.priority import compute_priority`) is not present in the
repository sources; only its caller is. Spec 4.2 specifies a pure,
rule-based, deterministic and total function mapping the AI signals
`(intent, sentiment, summary, redactedBody)` to a tier in
{LOW, MEDIUM, HIGH} plus an audit-loggable reason; the exact rule table is
declared a configuration concern. The rules below follow the spec's signal
examples (restricted intents, negative sentiment, urgency terms). -/

/-- Modelled from the spec: `compute_priority` of the absent app/priority.py,
per spec 4.2 — pure, deterministic, total, tier in {LOW, MEDIUM, HIGH},
reason specific enough for an audit log. -/
def compute_priority (intent sentiment summary redacted_body : String) :
    String × String :=
  let hasUrg := URGENCY_KEYWORDS.any (fun u => containsSub u (strLower redacted_body))
  if ["COMPLAINT", "CLAIM_RELATED", "PAYMENT_ISSUE"].contains intent then
    ("HIGH", "Restricted intent: " ++ intent)
  else if sentiment == "NEGATIVE" && hasUrg then
    ("HIGH", "Negative sentiment combined with urgency terms")
  else if sentiment == "NEGATIVE" || hasUrg then
    ("MEDIUM", "Risk signal: negative sentiment or urgency terms")
  else
    ("LOW", "No risk signals; routine handling. Summary: " ++ summary)

/-! ## database.py : the record store

The `emails` table is modelled as a list of rows in rowid order (ids are
assigned by AUTOINCREMENT, so along the list ids are strictly increasing —
stated as a hypothesis where a theorem needs it). `SELECT ... ORDER BY
ingested_at ASC LIMIT 1` is modelled as the stable minimum scan over that
list: earliest `ingested_at`, first row (least rowid) among ties, matching
the index scan over `idx_ingested_at`. Timestamps are `Nat`. -/

/-- The status column's closed enumeration. -/
inductive Status where
  | PENDING
  | PROCESSING
  | COMPLETED
  | FAILED
deriving DecidableEq, Repr

/-- One row of the `emails` table. -/
structure EmailRow where
  id : Nat
  google_id : String
  sender : String
  subject : String
  body_original : String
  body_redacted : Option String
  analysis : Option Analysis
  suggested_action : Option String
  generated_reply : Option String
  status : Status
  received_at : Nat
  ingested_at : Nat
  processed_at : Option Nat
  processing_started_at : Option Nat
deriving DecidableEq, Repr

/-- The `emails` table, in rowid order. -/
abbrev Store := List EmailRow

/-- `SELECT id FROM emails WHERE status = 'PENDING' ORDER BY ingested_at ASC
LIMIT 1` — stable minimum: earliest ingestion time, leftmost among ties. -/
def selectOldestPending : List EmailRow → Option EmailRow
  | [] => none
  | r :: rest =>
      if r.status = Status.PENDING then
        match selectOldestPending rest with
        | some s => if s.ingested_at < r.ingested_at then some s else some r
        | none => some r
      else
        selectOldestPending rest

/-- database.py `claim_next_pending_email`: inside one BEGIN IMMEDIATE
transaction (hence a single atomic step on the store), select the oldest
pending row, mark it PROCESSING with the processing-start stamp, and return
the re-fetched full row; with no pending row, commit with no changes and
return none. -/
def claim_next_pending_email (now : Nat) (db : Store) : Option EmailRow × Store :=
  match selectOldestPending db with
  | none => (none, db)
  | some r =>
      (some { r with status := Status.PROCESSING, processing_started_at := some now },
       db.map (fun x =>
         if x.id = r.id then
           { x with status := Status.PROCESSING, processing_started_at := some now }
         else x))

/-- database.py `update_email_analysis`: `UPDATE emails SET body_redacted,
analysis, suggested_action, generated_reply, status, processed_at WHERE id =
?` — an unconditional write to every row with the given id (there is no
status condition in the query). -/
def update_email_analysis (email_id : Nat) (redacted_body : String)
    (analysis : Analysis) (suggested_action : String)
    (generated_reply : Option String) (status : Status) (now : Nat)
    (db : Store) : Store :=
  db.map (fun x =>
    if x.id = email_id then
      { x with
          body_redacted := some redacted_body,
          analysis := some analysis,
          suggested_action := some suggested_action,
          generated_reply := generated_reply,
          status := status,
          processed_at := some now }
    else x)

/-! ## worker.py : process_email

The effectful collaborators are passed as outcome arguments: `redactOut` for
`redact_pii`, `retrOut`/`chainOut` for the two failure points inside
`analyze_email`, `draftOut` for the drafting LLM inside `generate_reply`,
and `persistFails` for the terminal COMPLETED write raising (in which case
its transaction rolls back). The `except` block's own FAILED write is the
store update itself. -/

/-- The body of worker.py `process_email`'s `try` block, acting on the store
`db1` left by the claim: redact, analyze, classify priority, enrich the
analysis dict, gate the reply, and persist COMPLETED. An error value is an
exception escaping the `try`; `persistFails` makes the terminal COMPLETED
write raise (its transaction rolls back, leaving `db1`). -/
def process_attempt (redactOut : Except String String) (retrOut : Except String Unit)
    (chainOut : Except String Analysis) (draftOut : Except String String)
    (persistFails : Bool) (email : EmailRow) (now : Nat) (db1 : Store) :
    Except String Store :=
  match redactOut with
  | Except.error e => Except.error e
  | Except.ok redacted_body =>
      match analyze_email retrOut chainOut with
      | Except.error e => Except.error e
      | Except.ok analysis_result =>
          let pr := compute_priority (analysis_result.intent.getD "")
            (analysis_result.sentiment.getD "")
            (analysis_result.summary.getD "") redacted_body
          let analysis2 := { analysis_result with
            priority := some pr.fst, priority_reason := some pr.snd }
          let reply := (generate_reply redacted_body
            (analysis_result.intent.getD "") pr.fst
            (analysis_result.confidence.getD "Low")
            (analysis_result.sentiment.getD "NEUTRAL") draftOut).fst
          let summary := analysis_result.summary.getD "No summary provided."
          if persistFails then Except.error "persist error"
          else Except.ok (update_email_analysis email.id redacted_body
            analysis2 summary (some reply) Status.COMPLETED now db1)

/-- worker.py `process_email`: claim, then run the `try` body; any exception
after the claim routes to the `except` block's FAILED write (with the error
detail in the analysis slot and suggested action "Manual Intervention").
Returns (worked, final store). -/
def process_email (redactOut : Except String String) (retrOut : Except String Unit)
    (chainOut : Except String Analysis) (draftOut : Except String String)
    (persistFails : Bool) (now : Nat) (db : Store) : Bool × Store :=
  match (claim_next_pending_email now db).fst with
  | none => (false, (claim_next_pending_email now db).snd)
  | some email =>
      match process_attempt redactOut retrOut chainOut draftOut persistFails
        email now (claim_next_pending_email now db).snd with
      | Except.ok db2 => (true, db2)
      | Except.error e =>
          (false, update_email_analysis email.id "" (errorAnalysis e)
            "Manual Intervention" none Status.FAILED now
            (claim_next_pending_email now db).snd)

/-! ## worker.py : start_loop backoff

The loop keeps `current_sleep`, starting at the floor 2; a successful claim
resets it to the floor without sleeping; an empty claim sleeps
`current_sleep` and then multiplies it by 1.5, capped at 60. The quantities
stay exact in `ℚ` (Python floats round nothing here: every value reached is
a dyadic multiple of a power of 3 well below 2^53). -/

/-- worker.py `min_sleep = 2`. -/
def min_sleep : ℚ := 2

/-- worker.py `max_sleep = 60`. -/
def max_sleep : ℚ := 60

/-- worker.py `current_sleep = min(current_sleep * 1.5, max_sleep)`. -/
def backoff_step (s : ℚ) : ℚ := min (s * (3 / 2)) max_sleep

/-- One iteration of the loop's backoff handling: on a successful claim,
no sleep and reset to the floor; on an empty claim, sleep `current_sleep`
and then grow it. Returns (sleep performed this iteration, new state). -/
def loop_iter (worked : Bool) (current_sleep : ℚ) : Option ℚ × ℚ :=
  if worked then (none, min_sleep)
  else (some current_sleep, backoff_step current_sleep)

/-- Run the loop's backoff over a trace of claim outcomes, collecting the
sleeps performed. -/
def run_loop (trace : List Bool) (current_sleep : ℚ) : List (Option ℚ) × ℚ :=
  match trace with
  | [] => ([], current_sleep)
  | w :: ws =>
      let st := loop_iter w current_sleep
      let rest := run_loop ws st.snd
      (st.fst :: rest.fst, rest.snd)

/-! ## Theorems -/

/-- C10: every pattern text in the fixed APPROVED_PATTERNS table passes
post-generation validation — `check_forbidden_output_terms` returns
`(false, "")` on each of the three pre-approved reply texts, so layer 5
never blocks a reply that echoes an approved pattern verbatim. -/
theorem approved_patterns_pass_post_validation :
    ∀ p ∈ APPROVED_PATTERNS, check_forbidden_output_terms p.snd = (false, "") := by
  decide

/-- Witness for C10 at the concrete pattern PATTERN_A. -/
theorem approved_patterns_pass_post_validation_witness :
    check_forbidden_output_terms "Thank you for contacting LIC.\nWe have received your message and it has been noted for review." = (false, "") :=
  approved_patterns_pass_post_validation
    ("PATTERN_A", "Thank you for contacting LIC.\nWe have received your message and it has been noted for review.")
    (by decide)

/-- C9 counterexample: when the RAG chain raises (here with message "boom"),
`analyze_email` returns the fixed fallback dict — but that dict carries no
confidence value at all (the key is absent), contradicting the claim that
the fallback includes a low confidence value. -/
theorem analyze_email_fallback_has_no_confidence :
    analyze_email (Except.ok ()) (Except.error "boom") = Except.ok fallbackAnalysis
      ∧ fallbackAnalysis.confidence = none :=
  ⟨rfl, rfl⟩

/-- C9 amended: whenever the analysis chain inside `analyze_email` raises,
`analyze_email` returns (rather than propagating the exception) the fixed
fallback dict with intent "Unknown", sentiment "Neutral" and suggested
action "Manual Review Required (AI Error)"; the dict has no confidence key,
and the low confidence the spec mentions arises only at the call site, where
the worker's defaulted lookup reads the missing key as "Low". -/
theorem analyze_email_fallback_spec (e : String) :
    analyze_email (Except.ok ()) (Except.error e) = Except.ok fallbackAnalysis
      ∧ fallbackAnalysis.intent = some "Unknown"
      ∧ fallbackAnalysis.sentiment = some "Neutral"
      ∧ fallbackAnalysis.suggested_action = some "Manual Review Required (AI Error)"
      ∧ fallbackAnalysis.confidence = none
      ∧ fallbackAnalysis.confidence.getD "Low" = "Low" :=
  ⟨rfl, rfl, rfl, rfl, rfl, rfl⟩

/-- C8: the priority classifier is total with tier confined to
{LOW, MEDIUM, HIGH}, and deterministic — equal inputs give equal
(tier, reason) pairs. (`compute_priority` is modelled from the spec, the
module app/priority.py being absent from the sources.) -/
theorem compute_priority_total_and_deterministic :
    ∀ intent sentiment summary redacted_body : String,
      ((compute_priority intent sentiment summary redacted_body).fst = "LOW"
        ∨ (compute_priority intent sentiment summary redacted_body).fst = "MEDIUM"
        ∨ (compute_priority intent sentiment summary redacted_body).fst = "HIGH")
      ∧ ∀ i2 s2 su2 b2 : String,
          intent = i2 → sentiment = s2 → summary = su2 → redacted_body = b2 →
          compute_priority intent sentiment summary redacted_body
            = compute_priority i2 s2 su2 b2 := by
  intro intent sentiment summary redacted_body
  constructor
  · simp only [compute_priority]
    split_ifs <;> simp
  · rintro i2 s2 su2 b2 rfl rfl rfl rfl
    rfl

/-- Witness for C8 at a concrete input tuple. -/
theorem compute_priority_total_and_deterministic_witness :
    ((compute_priority "REQUEST" "NEUTRAL" "routine question" "hello there").fst = "LOW"
      ∨ (compute_priority "REQUEST" "NEUTRAL" "routine question" "hello there").fst = "MEDIUM"
      ∨ (compute_priority "REQUEST" "NEUTRAL" "routine question" "hello there").fst = "HIGH")
    ∧ compute_priority "REQUEST" "NEUTRAL" "routine question" "hello there"
        = compute_priority "REQUEST" "NEUTRAL" "routine question" "hello there" :=
  ⟨(compute_priority_total_and_deterministic "REQUEST" "NEUTRAL" "routine question" "hello there").1,
   (compute_priority_total_and_deterministic "REQUEST" "NEUTRAL" "routine question" "hello there").2
     "REQUEST" "NEUTRAL" "routine question" "hello there" rfl rfl rfl rfl⟩

/-! ### Backoff lemmas (C6) -/

/-- Sleeps collected over `k` consecutive empty iterations from state `s`:
the `i`-th sleep is the `i`-fold backoff step applied to `s`. -/
theorem run_loop_fst_replicate (k : ℕ) (s : ℚ) :
    (run_loop (List.replicate k false) s).fst
      = (List.range k).map (fun i => some (backoff_step^[i] s)) := by
  induction k generalizing s with
  | zero => rfl
  | succ n ih =>
      rw [List.replicate_succ]
      show some s :: (run_loop (List.replicate n false) (backoff_step s)).fst = _
      rw [ih (backoff_step s), List.range_succ_eq_map, List.map_cons, List.map_map]
      simp [Function.iterate_succ_apply, Function.comp]

/-- Closed form of the iterated backoff from the floor:
`min(floor * 1.5^n, ceiling)`. -/
theorem backoff_iterate_formula (n : ℕ) :
    backoff_step^[n] min_sleep = min (min_sleep * (3 / 2) ^ n) max_sleep := by
  induction n with
  | zero =>
      norm_num [min_sleep, max_sleep, min_def]
  | succ n ih =>
      rw [Function.iterate_succ_apply', ih, backoff_step]
      rcases le_total (min_sleep * (3 / 2) ^ n) max_sleep with h | h
      · rw [min_eq_left h, pow_succ, ← mul_assoc]
      · rw [min_eq_right h]
        have h1 : min (max_sleep * (3 / 2)) max_sleep = max_sleep :=
          min_eq_right (by norm_num [max_sleep])
        have h2 : max_sleep ≤ min_sleep * (3 / 2) ^ (n + 1) := by
          have h3 : max_sleep * (3 / 2) ≤ min_sleep * (3 / 2) ^ n * (3 / 2) := by
            nlinarith [h]
          calc max_sleep ≤ max_sleep * (3 / 2) := by norm_num [max_sleep]
            _ ≤ min_sleep * (3 / 2) ^ n * (3 / 2) := h3
            _ = min_sleep * (3 / 2) ^ (n + 1) := by rw [pow_succ, ← mul_assoc]
        rw [h1, min_eq_right h2]

/-- C6 counterexample: after a successful claim (which resets the backoff)
followed by one empty claim, the loop sleeps the floor value 2 — the sleep
happens before the multiplication — whereas the claimed formula
`min(floor * 1.5^K, ceiling)` gives 3 at K = 1. -/
theorem backoff_first_sleep_counterexample :
    (run_loop [true, false] min_sleep).fst = [none, some 2]
      ∧ (2 : ℚ) ≠ min (min_sleep * (3 / 2) ^ (1 : ℕ)) max_sleep := by
  constructor
  · rfl
  · norm_num [min_sleep, max_sleep, min_def]

/-- C6 amended: after K consecutive empty claims (K ≥ 1) the sleep performed
on the K-th empty claim equals `min(floor * 1.5^(K-1), ceiling)` with floor 2
and ceiling 60 (the exponent is K-1, not K, because the loop sleeps before
growing the duration), and a successful claim resets the duration to the
floor without sleeping. -/
theorem backoff_sleep_formula (k : ℕ) (hk : 1 ≤ k) :
    ((run_loop (List.replicate k false) min_sleep).fst).getLast?
        = some (some (min (min_sleep * (3 / 2) ^ (k - 1)) max_sleep))
      ∧ ∀ s : ℚ, loop_iter true s = (none, min_sleep) := by
  constructor
  · obtain ⟨n, rfl⟩ : ∃ n, k = n + 1 := ⟨k - 1, (Nat.succ_pred_eq_of_pos hk).symm⟩
    rw [run_loop_fst_replicate, List.range_succ, List.map_append, List.map_singleton,
      List.getLast?_concat, backoff_iterate_formula]
    simp
  · intro s
    rfl

/-- Witness for C6's amended claim at K = 4 and a concrete reset. -/
theorem backoff_sleep_formula_witness :
    ((run_loop (List.replicate 4 false) min_sleep).fst).getLast?
        = some (some (min (min_sleep * (3 / 2) ^ (4 - 1)) max_sleep))
      ∧ loop_iter true 7 = (none, min_sleep) :=
  ⟨(backoff_sleep_formula 4 (by norm_num)).1,
   (backoff_sleep_formula 4 (by norm_num)).2 7⟩

/-! ### Store selection lemmas (C1, C2) -/

/-- If the stable minimum scan finds nothing, no row is PENDING. -/
theorem selectOldestPending_eq_none {l : List EmailRow}
    (h : selectOldestPending l = none) :
    ∀ r ∈ l, r.status ≠ Status.PENDING := by
  induction l with
  | nil => simp
  | cons a rest ih =>
      intro r hr
      by_cases ha : a.status = Status.PENDING
      · exfalso
        simp only [selectOldestPending, if_pos ha] at h
        rcases hsel : selectOldestPending rest with _ | s
        · simp only [hsel] at h
          simp at h
        · simp only [hsel] at h
          by_cases hlt : s.ingested_at < a.ingested_at
          · rw [if_pos hlt] at h
            simp at h
          · rw [if_neg hlt] at h
            simp at h
      · simp only [selectOldestPending, if_neg ha] at h
        rcases List.mem_cons.mp hr with rfl | hr2
        · exact ha
        · exact ih h r hr2

/-- The stable minimum scan returns a PENDING member of the list with the
least ingestion time among PENDING rows. -/
theorem selectOldestPending_spec {l : List EmailRow} :
    ∀ {r0 : EmailRow}, selectOldestPending l = some r0 →
      r0 ∈ l ∧ r0.status = Status.PENDING
        ∧ ∀ r ∈ l, r.status = Status.PENDING → r0.ingested_at ≤ r.ingested_at := by
  induction l with
  | nil => intro r0 h; simp [selectOldestPending] at h
  | cons a rest ih =>
      intro r0 h
      by_cases ha : a.status = Status.PENDING
      · simp only [selectOldestPending, if_pos ha] at h
        rcases hsel : selectOldestPending rest with _ | s
        · simp only [hsel] at h
          simp only [Option.some.injEq] at h
          subst h
          refine ⟨List.mem_cons_self _ _, ha, ?_⟩
          intro r hr hp
          rcases List.mem_cons.mp hr with rfl | hr2
          · exact le_refl _
          · exact absurd hp (selectOldestPending_eq_none hsel r hr2)
        · simp only [hsel] at h
          by_cases hlt : s.ingested_at < a.ingested_at
          · rw [if_pos hlt] at h
            simp only [Option.some.injEq] at h
            subst h
            obtain ⟨hmem, hpend, hmin⟩ := ih hsel
            refine ⟨List.mem_cons_of_mem _ hmem, hpend, ?_⟩
            intro r hr hp
            rcases List.mem_cons.mp hr with rfl | hr2
            · exact le_of_lt hlt
            · exact hmin r hr2 hp
          · rw [if_neg hlt] at h
            simp only [Option.some.injEq] at h
            subst h
            obtain ⟨_, _, hmin⟩ := ih hsel
            refine ⟨List.mem_cons_self _ _, ha, ?_⟩
            intro r hr hp
            rcases List.mem_cons.mp hr with rfl | hr2
            · exact le_refl _
            · exact le_trans (not_lt.mp hlt) (hmin r hr2 hp)
      · simp only [selectOldestPending, if_neg ha] at h
        obtain ⟨hmem, hpend, hmin⟩ := ih h
        refine ⟨List.mem_cons_of_mem _ hmem, hpend, ?_⟩
        intro r hr hp
        rcases List.mem_cons.mp hr with rfl | hr2
        · exact absurd hp ha
        · exact hmin r hr2 hp

/-- With ids strictly increasing along the list (AUTOINCREMENT order), the
stable minimum scan breaks ingestion-time ties by least id: the selected row
is lexicographically minimal in (ingested_at, id) among PENDING rows. -/
theorem selectOldestPending_tiebreak {l : List EmailRow} :
    l.Pairwise (fun a b => a.id < b.id) →
    ∀ {r0 : EmailRow}, selectOldestPending l = some r0 →
    ∀ r ∈ l, r.status = Status.PENDING →
      r0.ingested_at < r.ingested_at
        ∨ (r0.ingested_at = r.ingested_at ∧ r0.id ≤ r.id) := by
  induction l with
  | nil => intro _ r0 h; simp [selectOldestPending] at h
  | cons a rest ih =>
      intro hids r0 h
      obtain ⟨haid, hrest⟩ := List.pairwise_cons.mp hids
      by_cases ha : a.status = Status.PENDING
      · simp only [selectOldestPending, if_pos ha] at h
        rcases hsel : selectOldestPending rest with _ | s
        · simp only [hsel] at h
          simp only [Option.some.injEq] at h
          subst h
          intro r hr hp
          rcases List.mem_cons.mp hr with rfl | hr2
          · exact Or.inr ⟨rfl, le_refl _⟩
          · exact absurd hp (selectOldestPending_eq_none hsel r hr2)
        · simp only [hsel] at h
          by_cases hlt : s.ingested_at < a.ingested_at
          · rw [if_pos hlt] at h
            simp only [Option.some.injEq] at h
            subst h
            intro r hr hp
            rcases List.mem_cons.mp hr with rfl | hr2
            · exact Or.inl hlt
            · exact ih hrest hsel r hr2 hp
          · rw [if_neg hlt] at h
            simp only [Option.some.injEq] at h
            subst h
            intro r hr hp
            rcases List.mem_cons.mp hr with rfl | hr2
            · exact Or.inr ⟨rfl, le_refl _⟩
            · have hle : a.ingested_at ≤ r.ingested_at :=
                le_trans (not_lt.mp hlt) ((selectOldestPending_spec hsel).2.2 r hr2 hp)
              rcases lt_or_eq_of_le hle with hlt2 | heq
              · exact Or.inl hlt2
              · exact Or.inr ⟨heq, le_of_lt (haid r hr2)⟩
      · simp only [selectOldestPending, if_neg ha] at h
        intro r hr hp
        rcases List.mem_cons.mp hr with rfl | hr2
        · exact absurd hp ha
        · exact ih hrest h r hr2 hp

/-- C2: `claim_next_pending_email` on a store with a PENDING item (ids in
AUTOINCREMENT order) atomically claims the unique lexicographically least
PENDING row by (ingestion time, id): it returns that row's full record with
status PROCESSING and the processing-start stamp, and the new store differs
from the old only at that row's id; on a store with no PENDING item it
returns none and leaves the store unchanged. (The whole operation is a
single step on the store, matching the BEGIN IMMEDIATE transaction.) -/
theorem claim_next_pending_email_spec (db : Store) (now : Nat)
    (hids : List.Pairwise (fun a b => a.id < b.id) db) :
    ((∀ r ∈ db, r.status ≠ Status.PENDING) →
        claim_next_pending_email now db = (none, db))
    ∧ ((∃ r ∈ db, r.status = Status.PENDING) →
        ∃ r0, r0 ∈ db ∧ r0.status = Status.PENDING
          ∧ (∀ r ∈ db, r.status = Status.PENDING →
              r0.ingested_at < r.ingested_at
                ∨ (r0.ingested_at = r.ingested_at ∧ r0.id ≤ r.id))
          ∧ claim_next_pending_email now db
              = (some { r0 with status := Status.PROCESSING,
                                processing_started_at := some now },
                 db.map (fun x =>
                   if x.id = r0.id then
                     { x with status := Status.PROCESSING,
                              processing_started_at := some now }
                   else x))) := by
  constructor
  · intro hnone
    have hsel : selectOldestPending db = none := by
      rcases hsel : selectOldestPending db with _ | s
      · rfl
      · exact absurd (selectOldestPending_spec hsel).2.1
          (hnone s (selectOldestPending_spec hsel).1)
    unfold claim_next_pending_email
    rw [hsel]
  · rintro ⟨r, hr, hp⟩
    rcases hsel : selectOldestPending db with _ | r0
    · exact absurd hp (selectOldestPending_eq_none hsel r hr)
    · obtain ⟨hmem, hpend, _⟩ := selectOldestPending_spec hsel
      refine ⟨r0, hmem, hpend, selectOldestPending_tiebreak hids hsel, ?_⟩
      unfold claim_next_pending_email
      rw [hsel]

/-- Sample store for the C2 witness: a terminal row and two PENDING rows
tied on ingestion time. -/
def c2db : Store :=
  [{ id := 1, google_id := "g1", sender := "a", subject := "s1",
     body_original := "b1", body_redacted := some "r1", analysis := none,
     suggested_action := none, generated_reply := none,
     status := Status.COMPLETED, received_at := 1, ingested_at := 3,
     processed_at := some 4, processing_started_at := some 3 },
   { id := 2, google_id := "g2", sender := "a", subject := "s2",
     body_original := "b2", body_redacted := none, analysis := none,
     suggested_action := none, generated_reply := none,
     status := Status.PENDING, received_at := 2, ingested_at := 5,
     processed_at := none, processing_started_at := none },
   { id := 3, google_id := "g3", sender := "a", subject := "s3",
     body_original := "b3", body_redacted := none, analysis := none,
     suggested_action := none, generated_reply := none,
     status := Status.PENDING, received_at := 2, ingested_at := 5,
     processed_at := none, processing_started_at := none }]

/-- Witness for C2 on the concrete store `c2db` at time 7. -/
theorem claim_next_pending_email_spec_witness :
    ((∀ r ∈ c2db, r.status ≠ Status.PENDING) →
        claim_next_pending_email 7 c2db = (none, c2db))
    ∧ ((∃ r ∈ c2db, r.status = Status.PENDING) →
        ∃ r0, r0 ∈ c2db ∧ r0.status = Status.PENDING
          ∧ (∀ r ∈ c2db, r.status = Status.PENDING →
              r0.ingested_at < r.ingested_at
                ∨ (r0.ingested_at = r.ingested_at ∧ r0.id ≤ r.id))
          ∧ claim_next_pending_email 7 c2db
              = (some { r0 with status := Status.PROCESSING,
                                processing_started_at := some 7 },
                 c2db.map (fun x =>
                   if x.id = r0.id then
                     { x with status := Status.PROCESSING,
                              processing_started_at := some 7 }
                   else x))) :=
  claim_next_pending_email_spec c2db 7 (by decide)

/-! ### C1 : terminal items and the completeItem write -/

/-- A COMPLETED row used to exhibit C1's failure. -/
def c1row : EmailRow :=
  { id := 1, google_id := "g1", sender := "a", subject := "s",
    body_original := "b", body_redacted := some "r",
    analysis := none, suggested_action := some "done",
    generated_reply := some "old reply", status := Status.COMPLETED,
    received_at := 1, ingested_at := 2, processed_at := some 5,
    processing_started_at := some 3 }

/-- C1 counterexample: `update_email_analysis` applied to a store whose only
row is already COMPLETED is not rejected and not a no-op — the row is
rewritten (here all the way to FAILED with fresh fields), so a terminal item
can be re-written through the Store. -/
theorem update_email_analysis_terminal_not_noop :
    c1row.status = Status.COMPLETED
      ∧ update_email_analysis 1 "new body" (errorAnalysis "late write")
          "Manual Intervention" none Status.FAILED 9 [c1row] ≠ [c1row] := by
  decide

/-- C1 amended: the Store does not guard `update_email_analysis` on the
current status — the UPDATE overwrites the matching row's terminal fields
and status unconditionally, so calling it on a COMPLETED or FAILED item
rewrites that item's row with the supplied values instead of rejecting. The
one status-guarded transition is the claim: `claim_next_pending_email`
selects only PENDING rows, so it never moves a terminal item back to
PROCESSING (rows whose status is not PENDING survive a claim unchanged). -/
theorem update_unguarded_and_claim_guarded (db : Store) (r : EmailRow)
    (hmem : r ∈ db)
    (hterm : r.status = Status.COMPLETED ∨ r.status = Status.FAILED) :
    (∀ (red sa : String) (an : Analysis) (rep : Option String)
       (st : Status) (now : Nat),
        { r with body_redacted := some red, analysis := some an,
                 suggested_action := some sa, generated_reply := rep,
                 status := st, processed_at := some now }
          ∈ update_email_analysis r.id red an sa rep st now db)
    ∧ (∀ now : Nat, db.Pairwise (fun a b => a.id ≠ b.id) →
        r ∈ (claim_next_pending_email now db).snd) := by
  constructor
  · intro red sa an rep st now
    unfold update_email_analysis
    refine List.mem_map.mpr ⟨r, hmem, ?_⟩
    rw [if_pos rfl]
  · intro now hne
    rcases hsel : selectOldestPending db with _ | r0
    · unfold claim_next_pending_email
      rw [hsel]
      exact hmem
    · obtain ⟨hmem0, hpend0, _⟩ := selectOldestPending_spec hsel
      have hrne : r ≠ r0 := by
        intro hEq
        rw [hEq, hpend0] at hterm
        rcases hterm with h | h <;> exact Status.noConfusion h
      have hidne : r.id ≠ r0.id :=
        List.Pairwise.forall (fun _ _ hab => Ne.symm hab) hne hmem hmem0 hrne
      unfold claim_next_pending_email
      rw [hsel]
      refine List.mem_map.mpr ⟨r, hmem, ?_⟩
      rw [if_neg hidne]

/-- Witness for C1's amended claim: the terminal row `c1row` is rewritten by
a concrete `update_email_analysis` call, and survives a concrete claim
unchanged. -/
theorem update_unguarded_and_claim_guarded_witness :
    ({ c1row with body_redacted := some "new body",
                  analysis := some (errorAnalysis "late write"),
                  suggested_action := some "Manual Intervention",
                  generated_reply := none, status := Status.FAILED,
                  processed_at := some 9 }
        ∈ update_email_analysis c1row.id "new body" (errorAnalysis "late write")
            "Manual Intervention" none Status.FAILED 9 [c1row])
    ∧ c1row ∈ (claim_next_pending_email 4 [c1row]).snd :=
  ⟨(update_unguarded_and_claim_guarded [c1row] c1row (by decide) (Or.inl rfl)).1
      "new body" "Manual Intervention" (errorAnalysis "late write") none Status.FAILED 9,
   (update_unguarded_and_claim_guarded [c1row] c1row (by decide) (Or.inl rfl)).2
      4 (by decide)⟩

/-! ### C7 : the worker's FAILED fallback -/

/-- Every row carrying the updated id after `update_email_analysis` holds
exactly the written terminal fields. -/
theorem update_email_analysis_rows_with_id (email_id : Nat) (red : String)
    (an : Analysis) (sa : String) (rep : Option String) (st : Status)
    (now : Nat) (db : Store) :
    ∀ x ∈ update_email_analysis email_id red an sa rep st now db,
      x.id = email_id →
        x.status = st ∧ x.processed_at = some now ∧ x.analysis = some an := by
  intro x hx hid
  rcases List.mem_map.mp hx with ⟨y, hy, rfl⟩
  by_cases h : y.id = email_id
  · rw [if_pos h]
    exact ⟨rfl, rfl, rfl⟩
  · rw [if_neg h] at hid ⊢
    exact absurd hid h

/-- If redaction or the retriever raises, or the terminal persist raises,
the `try` body of `process_email` ends in an error. -/
theorem process_attempt_error_of_fail (redactOut : Except String String)
    (retrOut : Except String Unit) (chainOut : Except String Analysis)
    (draftOut : Except String String) (persistFails : Bool)
    (email : EmailRow) (now : Nat) (db1 : Store)
    (hfail : (∃ e, redactOut = Except.error e)
      ∨ (∃ e, retrOut = Except.error e) ∨ persistFails = true) :
    ∃ e, process_attempt redactOut retrOut chainOut draftOut persistFails
      email now db1 = Except.error e := by
  rcases hfail with ⟨e, rfl⟩ | ⟨e, rfl⟩ | hp
  · exact ⟨e, rfl⟩
  · rcases redactOut with e2 | rb
    · exact ⟨e2, rfl⟩
    · exact ⟨e, rfl⟩
  · rcases redactOut with e2 | rb
    · exact ⟨e2, rfl⟩
    · rcases retrOut with e2 | u
      · exact ⟨e2, rfl⟩
      · rcases chainOut with ce | ca
        · exact ⟨"persist error", by simp [process_attempt, analyze_email, hp]⟩
        · exact ⟨"persist error", by simp [process_attempt, analyze_email, hp]⟩

/-- C7: when the claim succeeds and any later stage raises (redaction, the
analysis retriever, or the terminal persist — the analysis chain and the
drafting LLM cannot raise past their own handlers), `process_email` performs
the FAILED write on the claimed item: the final store is the post-claim
store with the claimed id rewritten to status FAILED, the exception detail
in the analysis slot, suggested action "Manual Intervention" and the
processed timestamp stamped — every row carrying that id ends FAILED, never
silently PROCESSING. -/
theorem process_email_failure_marks_failed (redactOut : Except String String)
    (retrOut : Except String Unit) (chainOut : Except String Analysis)
    (draftOut : Except String String) (persistFails : Bool)
    (now : Nat) (db : Store) (email : EmailRow)
    (hclaim : (claim_next_pending_email now db).fst = some email)
    (hfail : (∃ e, redactOut = Except.error e)
      ∨ (∃ e, retrOut = Except.error e) ∨ persistFails = true) :
    ∃ e : String,
      process_email redactOut retrOut chainOut draftOut persistFails now db
          = (false, update_email_analysis email.id "" (errorAnalysis e)
              "Manual Intervention" none Status.FAILED now
              (claim_next_pending_email now db).snd)
        ∧ ∀ x ∈ (process_email redactOut retrOut chainOut draftOut persistFails now db).snd,
            x.id = email.id →
              x.status = Status.FAILED ∧ x.processed_at = some now
                ∧ x.analysis = some (errorAnalysis e) := by
  obtain ⟨e, hatt⟩ := process_attempt_error_of_fail redactOut retrOut chainOut
    draftOut persistFails email now (claim_next_pending_email now db).snd hfail
  have hEq : process_email redactOut retrOut chainOut draftOut persistFails now db
      = (false, update_email_analysis email.id "" (errorAnalysis e)
          "Manual Intervention" none Status.FAILED now
          (claim_next_pending_email now db).snd) := by
    unfold process_email
    rw [hclaim]
    simp only [hatt]
  refine ⟨e, hEq, ?_⟩
  rw [hEq]
  exact update_email_analysis_rows_with_id email.id "" (errorAnalysis e)
    "Manual Intervention" none Status.FAILED now
    (claim_next_pending_email now db).snd

/-- A PENDING row for the C7 witness. -/
def c7row : EmailRow :=
  { id := 1, google_id := "g7", sender := "x", subject := "s",
    body_original := "hello", body_redacted := none, analysis := none,
    suggested_action := none, generated_reply := none,
    status := Status.PENDING, received_at := 0, ingested_at := 0,
    processed_at := none, processing_started_at := none }

/-- The record the claim returns for `c7row` at time 9. -/
def c7claimed : EmailRow :=
  { c7row with status := Status.PROCESSING, processing_started_at := some 9 }

/-- Witness for C7: a concrete one-row store whose redaction stage raises. -/
theorem process_email_failure_marks_failed_witness :
    ∃ e : String,
      process_email (Except.error "boom") (Except.ok ()) (Except.ok fallbackAnalysis)
          (Except.ok "draft") false 9 [c7row]
          = (false, update_email_analysis c7claimed.id "" (errorAnalysis e)
              "Manual Intervention" none Status.FAILED 9
              (claim_next_pending_email 9 [c7row]).snd)
        ∧ ∀ x ∈ (process_email (Except.error "boom") (Except.ok ())
            (Except.ok fallbackAnalysis) (Except.ok "draft") false 9 [c7row]).snd,
            x.id = c7claimed.id →
              x.status = Status.FAILED ∧ x.processed_at = some 9
                ∧ x.analysis = some (errorAnalysis e) :=
  process_email_failure_marks_failed (Except.error "boom") (Except.ok ())
    (Except.ok fallbackAnalysis) (Except.ok "draft") false 9 [c7row] c7claimed
    (by decide) (Or.inl ⟨"boom", rfl⟩)

/-! ### Gate layering lemmas (C3, C4, C5) -/

/-- Case analysis of the gate's tail: it yields NO_REPLY with one of the
three tail reason keys, or a validated non-NO_REPLY text with no reason. -/
theorem pattern_and_validate_cases (eb i p c : String) (d : Except String String) :
    ((pattern_and_validate eb i p c d).fst = "NO_REPLY"
      ∧ ((pattern_and_validate eb i p c d).snd = some "PATTERN_NOT_FOUND"
         ∨ (pattern_and_validate eb i p c d).snd = some "LLM_ERROR"
         ∨ (pattern_and_validate eb i p c d).snd = some "POST_VALIDATION_FAIL"))
    ∨ ((pattern_and_validate eb i p c d).fst ≠ "NO_REPLY"
      ∧ (pattern_and_validate eb i p c d).snd = none
      ∧ (check_forbidden_output_terms (pattern_and_validate eb i p c d).fst).fst = false) := by
  unfold pattern_and_validate
  rcases hlk : PATTERN_MAPPING.lookup i with _ | pk
  · simp
  · rcases d with e | r
    · simp
    · dsimp only
      split_ifs with hC hF
      · simp
      · simp
      · refine Or.inr ⟨?_, rfl, ?_⟩
        · simpa [beq_iff_eq] using hC
        · simpa [Bool.not_eq_true] using hF

/-- The gate's tail never reports the layer-3 reason key. -/
theorem pattern_and_validate_snd_ne_soft (eb i p c : String)
    (d : Except String String) :
    (pattern_and_validate eb i p c d).snd ≠ some "SOFT_INDICATOR_WITH_RISK" := by
  rcases pattern_and_validate_cases eb i p c d with ⟨_, h | h | h⟩ | ⟨_, h, _⟩ <;>
    simp [h]

/-- When a soft indicator occurs in the lowered body, layer 3's flag equals
"negative sentiment or some urgency keyword occurs". -/
theorem check_soft_fst (email_body sentiment : String)
    (hsoft : ∃ ind ∈ SOFT_INDICATORS, containsSub ind (strLower email_body) = true) :
    (check_soft_indicators_with_risk email_body sentiment).fst
      = (sentiment == "NEGATIVE"
          || URGENCY_KEYWORDS.any (fun u => containsSub u (strLower email_body))) := by
  have hs : (SOFT_INDICATORS.find? (fun ind => containsSub ind (strLower email_body))).isSome := by
    rw [List.find?_isSome]
    obtain ⟨ind, hmem, hocc⟩ := hsoft
    exact ⟨ind, hmem, hocc⟩
  obtain ⟨ind, hind⟩ := Option.isSome_iff_exists.mp hs
  unfold check_soft_indicators_with_risk
  simp only [hind]
  cases hcond : (sentiment == "NEGATIVE"
      || URGENCY_KEYWORDS.any (fun u => containsSub u (strLower email_body))) <;>
    simp [hcond]

/-- C3: the Reply Safety Gate is total: for every input and every outcome of
the drafting collaborator it returns either NO_REPLY together with a logged
reason, or a non-NO_REPLY text that passed post-generation validation with
no block reason; and whenever the gate reaches the drafting invocation and
that invocation raises, the exception is caught and the result is NO_REPLY
with the dedicated LLM_ERROR reason code. -/
theorem generate_reply_total_and_catches
    (email_body intent priority confidence sentiment : String)
    (draft : Except String String) :
    (((generate_reply email_body intent priority confidence sentiment draft).fst = "NO_REPLY"
        ∧ (generate_reply email_body intent priority confidence sentiment draft).snd ≠ none)
      ∨ ((generate_reply email_body intent priority confidence sentiment draft).fst ≠ "NO_REPLY"
        ∧ (generate_reply email_body intent priority confidence sentiment draft).snd = none
        ∧ (check_forbidden_output_terms
            (generate_reply email_body intent priority confidence sentiment draft).fst).fst = false))
    ∧ (∀ e, draft = Except.error e →
        reaches_draft email_body intent priority confidence sentiment = true →
        generate_reply email_body intent priority confidence sentiment draft
          = ("NO_REPLY", some "LLM_ERROR")) := by
  constructor
  · unfold generate_reply
    split_ifs
    · exact Or.inl ⟨rfl, by simp⟩
    · exact Or.inl ⟨rfl, by simp⟩
    · exact Or.inl ⟨rfl, by simp⟩
    · exact Or.inl ⟨rfl, by simp⟩
    · exact Or.inl ⟨rfl, by simp⟩
    · rcases pattern_and_validate_cases email_body intent priority confidence draft with
        ⟨h1, h2⟩ | ⟨h1, h2, h3⟩
      · refine Or.inl ⟨h1, ?_⟩
        rcases h2 with h | h | h <;> simp [h]
      · exact Or.inr ⟨h1, h2, h3⟩
  · rintro e rfl hr
    simp only [reaches_draft, Bool.and_eq_true, Bool.not_eq_true'] at hr
    obtain ⟨⟨⟨⟨⟨h1, h2⟩, h3⟩, h4⟩, h5⟩, h6⟩ := hr
    unfold generate_reply
    rw [if_neg (by simp [h1]), if_neg (by rw [h2]; simp), if_neg (by simp [h3]),
      if_neg (by simp [h4]), if_neg (by simp [h5])]
    obtain ⟨pk, hpk⟩ := Option.isSome_iff_exists.mp h6
    unfold pattern_and_validate
    simp only [hpk]

/-- Witness for C3: a concrete benign input whose drafting invocation
raises. -/
theorem generate_reply_total_and_catches_witness :
    (((generate_reply "hello" "REQUEST" "LOW" "High" "NEUTRAL" (Except.error "boom")).fst = "NO_REPLY"
        ∧ (generate_reply "hello" "REQUEST" "LOW" "High" "NEUTRAL" (Except.error "boom")).snd ≠ none)
      ∨ ((generate_reply "hello" "REQUEST" "LOW" "High" "NEUTRAL" (Except.error "boom")).fst ≠ "NO_REPLY"
        ∧ (generate_reply "hello" "REQUEST" "LOW" "High" "NEUTRAL" (Except.error "boom")).snd = none
        ∧ (check_forbidden_output_terms
            (generate_reply "hello" "REQUEST" "LOW" "High" "NEUTRAL" (Except.error "boom")).fst).fst = false))
    ∧ generate_reply "hello" "REQUEST" "LOW" "High" "NEUTRAL" (Except.error "boom")
        = ("NO_REPLY", some "LLM_ERROR") :=
  ⟨(generate_reply_total_and_catches "hello" "REQUEST" "LOW" "High" "NEUTRAL"
      (Except.error "boom")).1,
   (generate_reply_total_and_catches "hello" "REQUEST" "LOW" "High" "NEUTRAL"
      (Except.error "boom")).2 "boom" rfl (by decide)⟩

/-- C4: when layers 1 through 4 pass and the drafting collaborator returns a
text whose cleaned form is not the NO_REPLY echo but contains a forbidden
term (case-insensitive), the gate returns NO_REPLY with the post-validation
reason. -/
theorem generate_reply_post_validation_blocks
    (email_body intent priority confidence sentiment r : String)
    (hreach : reaches_draft email_body intent priority confidence sentiment = true)
    (hne : cleanResponse r ≠ "NO_REPLY")
    (hforb : (check_forbidden_output_terms (cleanResponse r)).fst = true) :
    generate_reply email_body intent priority confidence sentiment (Except.ok r)
      = ("NO_REPLY", some "POST_VALIDATION_FAIL") := by
  simp only [reaches_draft, Bool.and_eq_true, Bool.not_eq_true'] at hreach
  obtain ⟨⟨⟨⟨⟨h1, h2⟩, h3⟩, h4⟩, h5⟩, h6⟩ := hreach
  unfold generate_reply
  rw [if_neg (by simp [h1]), if_neg (by rw [h2]; simp), if_neg (by simp [h3]),
    if_neg (by simp [h4]), if_neg (by simp [h5])]
  obtain ⟨pk, hpk⟩ := Option.isSome_iff_exists.mp h6
  unfold pattern_and_validate
  simp only [hpk]
  rw [if_neg (by simp [beq_iff_eq, hne]), if_pos hforb]

/-- Witness for C4: layers 1 to 4 pass on a benign body, and a drafting stub
that injects the word "guaranteed" forces NO_REPLY. -/
theorem generate_reply_post_validation_blocks_witness :
    generate_reply "hello" "REQUEST" "LOW" "High" "NEUTRAL"
        (Except.ok "Your payout is guaranteed")
      = ("NO_REPLY", some "POST_VALIDATION_FAIL") :=
  generate_reply_post_validation_blocks "hello" "REQUEST" "LOW" "High" "NEUTRAL"
    "Your payout is guaranteed" (by decide) (by decide) (by decide)

/-- C5: for a body containing a soft indicator that reaches layer 3 (layers
1 and 2 pass), the gate blocks with the soft-indicator reason exactly when
the sentiment is NEGATIVE or the body contains an urgency term; a soft
indicator alone does not block at layer 3. -/
theorem soft_indicator_blocks_iff_risk
    (email_body intent priority confidence sentiment : String)
    (draft : Except String String)
    (h1 : (priority == "HIGH") = false)
    (h2 : (["COMPLAINT", "CLAIM_RELATED", "PAYMENT_ISSUE"].contains intent) = false)
    (h3 : (confidence == "High") = true)
    (h4 : (check_hard_keywords email_body).fst = false)
    (h5 : ∃ ind ∈ SOFT_INDICATORS, containsSub ind (strLower email_body) = true) :
    generate_reply email_body intent priority confidence sentiment draft
        = ("NO_REPLY", some "SOFT_INDICATOR_WITH_RISK")
      ↔ (sentiment = "NEGATIVE"
          ∨ ∃ u ∈ URGENCY_KEYWORDS, containsSub u (strLower email_body) = true) := by
  have hc := check_soft_fst email_body sentiment h5
  unfold generate_reply
  rw [if_neg (by simp [h1]), if_neg (by rw [h2]; simp), if_neg (by simp [h3]),
    if_neg (by simp [h4])]
  by_cases hs : (check_soft_indicators_with_risk email_body sentiment).fst = true
  · rw [if_pos hs]
    refine iff_of_true rfl ?_
    rw [hc] at hs
    simpa [List.any_eq_true, beq_iff_eq] using hs
  · rw [if_neg hs]
    refine iff_of_false ?_ ?_
    · intro hEq
      exact pattern_and_validate_snd_ne_soft email_body intent priority confidence
        draft (by rw [hEq])
    · intro hrisk
      apply hs
      rw [hc]
      rcases hrisk with hneg | ⟨u, hu, hocc⟩
      · simp [hneg]
      · have ha : URGENCY_KEYWORDS.any (fun u => containsSub u (strLower email_body)) = true := by
          simpa [List.any_eq_true] using ⟨u, hu, hocc⟩
        simp [ha]

/-- Witness for C5 at the spec's example: a soft indicator plus an urgency
term blocks with the soft-indicator reason. -/
theorem soft_indicator_blocks_iff_risk_witness :
    (generate_reply "please tell me the timeline, this is urgent"
        "GENERAL_ENQUIRY" "LOW" "High" "NEUTRAL" (Except.ok "x")
        = ("NO_REPLY", some "SOFT_INDICATOR_WITH_RISK"))
      ↔ (("NEUTRAL" : String) = "NEGATIVE"
          ∨ ∃ u ∈ URGENCY_KEYWORDS,
              containsSub u (strLower "please tell me the timeline, this is urgent") = true) :=
  soft_indicator_blocks_iff_risk "please tell me the timeline, this is urgent"
    "GENERAL_ENQUIRY" "LOW" "High" "NEUTRAL" (Except.ok "x")
    (by decide) (by decide) (by decide) (by decide)
    ⟨"timeline", by decide, by decide⟩

end LIC
